import Mathlib

/-!
# Verification of `flask_parameter_validation/parameter_validation.py`

Shallow embedding of the validation engine in
`src/flask_parameter_validation/parameter_validation.py`.

Python runtime values are modelled by the inductive `Value`; declared type
annotations (`str`, `int`, `typing.List[...]`, `typing.Union[...]`,
`typing.Any`, with `typing.Optional[T]` being `typing.Union[T, NoneType]`
as in the Python version targeted by the repository) by `Ann`.  The
`parameter_types` module (the `Route`/`Json`/`Query`/`Form`/`File` classes)
and the `exceptions` module are imported by the source file but are not part
of the repository snapshot under `src/`; the definitions modelling them are
marked `Modelled from the spec:` and follow the specification text.

Python's `None` is `Value.none`; a `dict.get` miss is conflated with a
stored `None` exactly as the source's `is None` test does.
-/

namespace FPV

/-- Runtime types (results of Python `type(x)`) occurring in the engine. -/
inductive PyType where
  | int
  | str
  | bool
  | noneType
  | list
deriving DecidableEq, Repr

/-- Python runtime values handled by the engine. -/
inductive Value where
  | int (n : Int)
  | str (s : String)
  | bool (b : Bool)
  | none
  | list (xs : List Value)

/-- The source's `user_input is None` / `default is not None` tests. -/
def Value.isNone : Value → Bool
  | .none => true
  | _ => false

/-- `type(v)` for the modelled values. -/
def Value.pyType : Value → PyType
  | .int _ => .int
  | .str _ => .str
  | .bool _ => .bool
  | .none => .noneType
  | .list _ => .list

/-- Declared type annotations, as the source inspects them through
`str(annotation)` and `__args__`.  `prim t` is a plain runtime class such
as `int` or `NoneType`; `listOf args` is `typing.List[...]` with its
`__args__`; `unionOf args` is `typing.Union[...]` with its `__args__`
(this includes `typing.Optional[T] = typing.Union[T, NoneType]`);
`any` is `typing.Any`. -/
inductive Ann where
  | any
  | prim (t : PyType)
  | listOf (args : List Ann)
  | unionOf (args : List Ann)

/-- Whether an annotation object is the class `NoneType` (i.e. `type(None)`). -/
def Ann.isNoneType : Ann → Bool
  | .prim .noneType => true
  | _ => false

/-- `str(expected_input.annotation).startswith("typing.Union")`. -/
def isUnionAnn : Ann → Bool
  | .unionOf _ => true
  | _ => false

/-- `str(...).startswith("typing.List")`. -/
def isListAnn : Ann → Bool
  | .listOf _ => true
  | _ => false

/-- `str(...).startswith("typing.Any")`. -/
def isAnyAnn : Ann → Bool
  | .any => true
  | _ => false

/-- `type(inp) in expected_input_types`: a runtime type compares equal only
to a plain class among the candidate annotation objects (a `typing.List` or
`typing.Union` object never equals a runtime type). -/
def typeInAnns (t : PyType) (anns : List Ann) : Bool :=
  anns.any fun a =>
    match a with
    | .prim u => t == u
    | _ => false

/-- Line 83 of the source:
`hasattr(expected_input_type, "__args__") and type(None) in expected_input_type.__args__`.
Only `typing.Union[...]` and `typing.List[...]` objects expose `__args__`. -/
def optionalByArgs : Ann → Bool
  | .unionOf ms => ms.any Ann.isNoneType
  | .listOf ms => ms.any Ann.isNoneType
  | _ => false

/-- Python name of a plain runtime class (its `__name__`). -/
def primTypeName : PyType → String
  | .int => "int"
  | .str => "str"
  | .bool => "bool"
  | .noneType => "NoneType"
  | .list => "list"

mutual
/-- `str(annotation)` for a typing object (quotes of Python's
`<class ...>` rendering elided). -/
def Ann.render : Ann → String
  | .any => "typing.Any"
  | .prim t => "<class " ++ primTypeName t ++ ">"
  | .listOf args => "typing.List[" ++ renderArgs args ++ "]"
  | .unionOf args => "typing.Union[" ++ renderArgs args ++ "]"

/-- Comma-separated rendering of `__args__` (plain classes render by name
inside a typing object, as Python does). -/
def renderArgs : List Ann → String
  | [] => ""
  | [a] => renderArg a
  | a :: rest => renderArg a ++ ", " ++ renderArgs rest

/-- A single argument inside a typing object. -/
def renderArg : Ann → String
  | .prim t => primTypeName t
  | a => Ann.render a
end

/-- Lines 127-130 of the source: plain classes (whose `str` does not start
with `typing.`) are named by `__name__`, typing objects by their `str`. -/
def typeNameForError : Ann → String
  | .prim t => primTypeName t
  | a => Ann.render a

/-- The five recognized source kinds (`Route`, `Json`, `Query`, `Form`,
`File` classes, the keys of `request_inputs`). -/
inductive SourceKind where
  | route
  | json
  | query
  | form
  | file
deriving DecidableEq, Repr

/-- Printable name of a source kind. -/
def kindName : SourceKind → String
  | .route => "Route"
  | .json => "Json"
  | .query => "Query"
  | .form => "Form"
  | .file => "File"

/-- Exceptions that can be raised during validation.  `missingInput`,
`invalidParameterType` and `validationError` model the repository's
`exceptions` module (not under `src/`); `valueError` and `typeError`
model Python's built-in `ValueError` and `TypeError`.  All model Python
`Exception` subclasses. -/
inductive PyExc where
  | missingInput (name : String) (kind : SourceKind)
  | invalidParameterType
  | validationError (message : String) (name : String) (declared : Ann)
  | valueError (message : String)
  | typeError (message : String)

/-- Modelled from the spec: the `exceptions` module is not under `src/`;
per section 7 each error carries a human-readable message naming the
parameter (and, for `MissingInputError`, its source kind).  `str(e)`. -/
def strOfExc : PyExc → String
  | .missingInput n k => "Missing required " ++ kindName k ++ " parameter " ++ n
  | .invalidParameterType => "Invalid parameter delivery type"
  | .validationError m n _ => "Parameter " ++ n ++ " " ++ m
  | .valueError m => m
  | .typeError m => m

/-- Python iteration (`for inp in user_inputs`): lists yield their
elements, strings yield their characters as one-character strings, and
`int`/`bool`/`None` raise `TypeError`. -/
def pyIter : Value → Except PyExc (List Value)
  | .list xs => .ok xs
  | .str s => .ok (s.toList.map fun c => .str (Char.toString c))
  | .int _ => .error (.typeError "int object is not iterable")
  | .bool _ => .error (.typeError "bool object is not iterable")
  | .none => .error (.typeError "NoneType object is not iterable")

/-- Modelled from the spec: the `parameter_types` module is not under
`src/`.  A delivery-type instance (the parameter's declared default in the
handler signature, e.g. `Json(...)`, `Query(False)`) duck-typed as the
engine uses it: its class (`kind`, `Option.none` when the default is not an
instance of one of the five recognized classes), its `default` attribute
(Python `None` = `Value.none` when unset), its `convert` method and its
`validate` method (`validateF`; raising models a thrown exception). -/
structure DeliveryType where
  kind : Option SourceKind
  default : Value
  convert : Value → List Ann → Value
  validateF : Value → Except PyExc Unit

/-- Digit-string to number, used by the spec-modelled `convert`. -/
def digitsToNat : List Char → Option Nat
  | [] => Option.none
  | cs =>
    if cs.all Char.isDigit then
      some (cs.foldl (fun acc c => acc * 10 + (c.toNat - 48)) 0)
    else Option.none

/-- Parse an optionally-signed integer literal, used by the spec-modelled
`convert` in place of Python `int(s)`. -/
def strToInt? (s : String) : Option Int :=
  match s.toList with
  | '-' :: rest => (digitsToNat rest).map fun n => -(n : Int)
  | cs => (digitsToNat cs).map fun n => (n : Int)

/-- Modelled from the spec: section 4.1 `convert(rawValue, candidateTypes)`
of the `parameter_types` module (not under `src/`) — best-effort coercion
of the raw value into one of the candidate types (textual true/false/1/0
to boolean, numeric strings to int), idempotent on already-correctly-typed
input, never raising, and returning the value unchanged when it cannot
coerce. -/
def specConvert (v : Value) (cands : List Ann) : Value :=
  if typeInAnns v.pyType cands then v
  else
    match v with
    | .str s =>
      if typeInAnns .bool cands && (s == "true" || s == "True" || s == "1") then .bool true
      else if typeInAnns .bool cands && (s == "false" || s == "False" || s == "0") then
        .bool false
      else
        match strToInt? s with
        | some n => if typeInAnns .int cands then .int n else v
        | Option.none => v
    | _ => v

/-- One entry of `signature(f).parameters`: the parameter's name, its
annotation, and its declared default, which for this engine is the
delivery-type instance (`expected_input.default`). -/
structure Parameter where
  name : String
  anno : Ann
  default : DeliveryType

/-- One iteration of the union/list election loop (source lines 97-105):
if the member is a `typing.List[...]`, the raw value is a `list`, and every
element's runtime type is among the member's `__args__`, the state
(`expected_input_type`, `expected_input_types`, `user_inputs`) collapses to
that list member; otherwise the state is unchanged. -/
def electStep (user_input : Value) (st : Ann × List Ann × Value) (exp_type : Ann) :
    Ann × List Ann × Value :=
  match exp_type, user_input with
  | .listOf elemArgs, .list xs =>
    if xs.all (fun inp => typeInAnns inp.pyType elemArgs) then
      (.listOf elemArgs, elemArgs, .list xs)
    else st
  | _, _ => st

/-- Source lines 92-112: prepare `expected_input_type` (possibly collapsed
by the election loop), `expected_input_types` (the candidate set) and
`user_inputs` (the values whose runtime types will be checked, as a Python
value to be iterated) from the declared annotation and the raw value. -/
def prepareTypes (ann : Ann) (user_input : Value) : Ann × List Ann × Value :=
  match ann with
  | .unionOf ms => ms.foldl (electStep user_input) (ann, ms, .list [user_input])
  | .listOf elemArgs => (ann, elemArgs, user_input)
  | _ => (ann, [ann], .list [user_input])

/-- Source lines 117-123: `validation_success` — every iterated element's
runtime type is among the candidates, and when the (possibly collapsed)
descriptor is a `typing.List[...]` the converted value itself must be a
`list`. -/
def conformanceOk (cur : Ann) (cands : List Ann) (elems : List Value) (converted : Value) :
    Bool :=
  elems.all (fun inp => typeInAnns inp.pyType cands) &&
    (!isListAnn cur || converted.pyType == .list)

/-- Source lines 88-140: the per-parameter pipeline once a raw value is in
hand (supplied or substituted from the delivery type's default): skip-any
short-circuit, type preparation/election, conversion, conformance check
(iterating the pre-conversion `user_inputs`; iterating a non-iterable
raises `TypeError`), and the delivery type's semantic `validate` with
exactly `ValueError` re-raised as a `ValidationError`. -/
def processValue (name : String) (ann : Ann) (dt : DeliveryType) (user_input : Value) :
    Except PyExc Value :=
  if isAnyAnn ann then .ok user_input
  else
    let st := prepareTypes ann user_input
    let converted := dt.convert user_input st.2.1
    match pyIter st.2.2 with
    | .error e => .error e
    | .ok elems =>
      if conformanceOk st.1 st.2.1 elems converted then
        match dt.validateF converted with
        | .ok _ => .ok converted
        | .error (.valueError m) => .error (.validationError m name st.1)
        | .error e => .error e
      else
        .error (.validationError ("must be type " ++ typeNameForError ann) name ann)

/-- Source lines 53-140, `ValidateParameters.validate`: resolve the
delivery class, fetch the raw value (a `dict.get` miss and a stored `None`
both give `None`), resolve absence via the delivery default /
optional-union test / `MissingInputError`, then run the value pipeline. -/
def validate (p : Parameter) (inputs : SourceKind → String → Option Value) :
    Except PyExc Value :=
  match p.default.kind with
  | Option.none => .error .invalidParameterType
  | some kind =>
    let user_input := (inputs kind p.name).getD Value.none
    if user_input.isNone then
      if !(p.default.default.isNone) then processValue p.name p.anno p.default p.default.default
      else if optionalByArgs p.anno then .ok Value.none
      else .error (.missingInput p.name kind)
    else processValue p.name p.anno p.default user_input

/-- The request data `nested_func` snapshots from Flask: the parsed JSON
body, the query-string dict, the form dict and the files dict, each a
name-to-value association list. -/
structure RequestData where
  json : List (String × Value)
  args : List (String × Value)
  form : List (String × Value)
  files : List (String × Value)

/-- Python `dict.get(name)` over an association list. -/
def alookup (l : List (String × Value)) (k : String) : Option Value :=
  (l.find? fun p => p.1 == k).map (·.2)

/-- Source lines 21-28: the `request_inputs` bundle, keyed by delivery
class: route values are the call-time `kwargs`, the rest come from the
request. -/
def request_inputs (kwargs : List (String × Value)) (req : RequestData) :
    SourceKind → String → Option Value
  | .route => alookup kwargs
  | .json => alookup req.json
  | .query => alookup req.args
  | .form => alookup req.form
  | .file => alookup req.files

/-- Observable outcome of `nested_func`: the handler invoked with its
call-time arguments, the default error response (a payload modelling
`{"error": message}` together with the HTTP status), the custom error
handler's result returned verbatim, or an exception propagating uncaught
out of the decorator. -/
inductive Outcome (ρ : Type) where
  | invoked (callArgs : List (String × Value))
  | errorResponse (message : String) (status : Nat)
  | custom (r : ρ)
  | raised (e : PyExc)

/-- The two `except` clauses of the default path (source lines 38-41):
only `MissingInputError` and `ValidationError` are caught. -/
def isCaughtDefault : PyExc → Bool
  | .missingInput _ _ => true
  | .validationError _ _ _ => true
  | _ => false

/-- The validation loop of `nested_func` (source lines 33-48), carrying the
`validated_inputs` accumulator exactly as the source does.  With no custom
handler, `MissingInputError`/`ValidationError` yield the default error
response and any other exception propagates; with a custom handler every
exception is passed to it and its result returned verbatim.  When the loop
finishes the handler is invoked with `kwargs` — the accumulator is
discarded. -/
def nestedGo {ρ : Type} (h? : Option (PyExc → ρ)) (inputs : SourceKind → String → Option Value)
    (kwargs : List (String × Value)) :
    List Parameter → List (String × Value) → Outcome ρ
  | [], _ => .invoked kwargs
  | p :: rest, acc =>
    match h? with
    | Option.none =>
      match validate p inputs with
      | .error e =>
        if isCaughtDefault e then .errorResponse (strOfExc e) 400 else .raised e
      | .ok v => nestedGo h? inputs kwargs rest (acc ++ [(p.name, v)])
    | some h =>
      match validate p inputs with
      | .error e => .custom (h e)
      | .ok v => nestedGo h? inputs kwargs rest (acc ++ [(p.name, v)])

/-- Source lines 20-48, `nested_func`: build the request bundle, validate
every expected input in declaration order, and on success call
`f(**kwargs)`. -/
def nested_func {ρ : Type} (h? : Option (PyExc → ρ)) (expected_inputs : List Parameter)
    (kwargs : List (String × Value)) (req : RequestData) : Outcome ρ :=
  nestedGo h? (request_inputs kwargs req) kwargs expected_inputs []

/-- The `validated_inputs` dictionary the loop builds (source lines 33,
47), in declaration order — computed, then discarded by `return f(**kwargs)`. -/
def validated_inputs (inputs : SourceKind → String → Option Value) :
    List Parameter → Except PyExc (List (String × Value))
  | [] => .ok []
  | p :: rest => do
    let v ← validate p inputs
    let r ← validated_inputs inputs rest
    pure ((p.name, v) :: r)

/-! ### Concrete delivery-type instances used by the example handler -/

/-- A semantic validator with no constraints: always passes. -/
def okValidateF : Value → Except PyExc Unit := fun _ => .ok ()

/-- A delivery-type instance with every duck-typed member supplied. -/
def mkDeliveryFull (k : Option SourceKind) (d : Value) (c : Value → List Ann → Value)
    (s : Value → Except PyExc Unit) : DeliveryType :=
  { kind := k, default := d, convert := c, validateF := s }

/-- Modelled from the spec: a `Route()`/`Json()`/`Query()`/... instance
with the given class, default and constraint validator, using the
spec-modelled `convert`. -/
def mkDelivery (k : SourceKind) (d : Value) (sem : Value → Except PyExc Unit) :
    DeliveryType :=
  { kind := some k, default := d, convert := specConvert, validateF := sem }

/-- `Route()` — no default, no constraints. -/
def routeB : DeliveryType := mkDelivery .route Value.none okValidateF

/-- `Json()` — no default, no constraints. -/
def jsonB : DeliveryType := mkDelivery .json Value.none okValidateF

/-- `Query(False)` — the falsy default of the `is_admin` scenario. -/
def queryFalseB : DeliveryType := mkDelivery .query (Value.bool false) okValidateF

/-- An empty request (no JSON body, no query string, no form, no files). -/
def emptyReq : RequestData := { json := [], args := [], form := [], files := [] }

/-- Build a `Parameter` (one entry of `signature(f).parameters`). -/
def mkParam (n : String) (a : Ann) (dt : DeliveryType) : Parameter :=
  { name := n, anno := a, default := dt }

/-- `id: int = Route()` from the example handler. -/
def idParam : Parameter := { name := "id", anno := .prim .int, default := routeB }

/-- `username: str = Json()` (constraints elided). -/
def usernameParam : Parameter := { name := "username", anno := .prim .str, default := jsonB }

/-- `age: int = Json()` (constraints elided). -/
def ageParam : Parameter := { name := "age", anno := .prim .int, default := jsonB }

/-! ### Helper lemmas -/

@[simp]
theorem Value.isNone_none : Value.isNone Value.none = true := rfl

/-- A non-`typing.List` union member never fires the election step. -/
theorem electStep_not_list_ann (u : Value) (st : Ann × List Ann × Value) :
    ∀ a : Ann, isListAnn a = false → electStep u st a = st
  | .any, _ => by cases u <;> rfl
  | .prim _, _ => by cases u <;> rfl
  | .unionOf _, _ => by cases u <;> rfl
  | .listOf _, h => by simp [isListAnn] at h

/-- A non-`list` raw value never fires the election step. -/
theorem electStep_not_list_value (st : Ann × List Ann × Value) (a : Ann) :
    ∀ u : Value, u.pyType ≠ PyType.list → electStep u st a = st := by
  intro u hu
  cases a with
  | listOf args =>
    cases u with
    | list xs => exact absurd rfl hu
    | int _ => rfl
    | str _ => rfl
    | bool _ => rfl
    | none => rfl
  | any => exact electStep_not_list_ann u st _ rfl
  | prim _ => exact electStep_not_list_ann u st _ rfl
  | unionOf _ => exact electStep_not_list_ann u st _ rfl

/-- Folding the election step over members none of which fire leaves the
state unchanged. -/
theorem foldl_electStep_id (u : Value) :
    ∀ ms : List Ann, (∀ a ∈ ms, ∀ st : Ann × List Ann × Value, electStep u st a = st) →
      ∀ st : Ann × List Ann × Value, ms.foldl (electStep u) st = st
  | [], _, _ => rfl
  | a :: rest, h, st => by
    rw [List.foldl_cons, h a (by simp) st]
    exact foldl_electStep_id u rest (fun b hb st' => h b (by simp [hb]) st') st

end FPV

open FPV

/-- C4: an optional parameter (declared type a union containing the null
marker) that is absent from its source and whose delivery type has no
non-absent default resolves to the null marker, for every conversion
function and every semantic validator — so neither conversion, nor type
conformance, nor the semantic validator can influence (or be invoked on)
the outcome. -/
theorem C4_optional_absent_yields_null
    (name : String) (ms : List Ann) (kind : SourceKind)
    (conv : Value → List Ann → Value) (sem : Value → Except PyExc Unit)
    (inputs : SourceKind → String → Option Value)
    (hmem : Ann.prim PyType.noneType ∈ ms)
    (habs : (inputs kind name).getD Value.none = Value.none) :
    validate (mkParam name (Ann.unionOf ms) (mkDeliveryFull (some kind) Value.none conv sem))
        inputs = .ok Value.none := by
  have hopt : ms.any Ann.isNoneType = true :=
    List.any_eq_true.mpr ⟨_, hmem, rfl⟩
  simp [validate, mkParam, mkDeliveryFull, habs, Value.isNone, optionalByArgs, hopt]

/-- Witness for C4 at a concrete optional parameter `x: Optional[int] = Json()`
absent from an empty request. -/
theorem C4_witness :
    validate (mkParam "x" (Ann.unionOf [.prim .int, .prim .noneType])
        (mkDeliveryFull (some .json) Value.none specConvert okValidateF))
      (request_inputs [] emptyReq) = .ok Value.none :=
  C4_optional_absent_yields_null "x" [.prim .int, .prim .noneType] .json specConvert
    okValidateF (request_inputs [] emptyReq) (by simp) rfl

/-- C5: when the source has no value for the parameter's name, a non-absent
delivery-type default (even a falsy one) is substituted and run through the
normal value pipeline; otherwise an optional descriptor yields the null
marker; otherwise a missing-required-input error carrying the name and the
source kind is raised. -/
theorem C5_absence_resolution
    (p : Parameter) (kind : SourceKind) (inputs : SourceKind → String → Option Value)
    (hk : p.default.kind = some kind)
    (habs : (inputs kind p.name).getD Value.none = Value.none) :
    (p.default.default.isNone = false →
      validate p inputs = processValue p.name p.anno p.default p.default.default) ∧
    (p.default.default.isNone = true → optionalByArgs p.anno = true →
      validate p inputs = .ok Value.none) ∧
    (p.default.default.isNone = true → optionalByArgs p.anno = false →
      validate p inputs = .error (.missingInput p.name kind)) := by
  refine ⟨fun h1 => ?_, fun h1 h2 => ?_, fun h1 h2 => ?_⟩
  · simp [validate, hk, habs, h1]
  · simp [validate, hk, habs, h1, h2]
  · simp [validate, hk, habs, h1, h2]

/-- Witness for C5: the `is_admin: bool = Query(False)` scenario with the
query string omitting it — the default (falsy `False`) path is exercised
and the pipeline coerces to `False`. -/
theorem C5_witness :
    validate { name := "is_admin", anno := .prim .bool, default := queryFalseB }
        (request_inputs [] emptyReq) =
      processValue "is_admin" (.prim .bool) queryFalseB (.bool false) ∧
    processValue "is_admin" (.prim .bool) queryFalseB (.bool false) = .ok (.bool false) :=
  ⟨(C5_absence_resolution
      { name := "is_admin", anno := .prim .bool, default := queryFalseB }
      .query (request_inputs [] emptyReq) rfl rfl).1 rfl,
   by rfl⟩

/-- C9: absence is decided by the raw lookup returning the null marker, so
a value explicitly stored as null in the source is indistinguishable from
the name being missing: validation gives identical results against the two
bundles. -/
theorem C9_explicit_null_equals_absent
    (p : Parameter) (kind : SourceKind)
    (b1 b2 : SourceKind → String → Option Value)
    (hk : p.default.kind = some kind)
    (h1 : b1 kind p.name = some Value.none)
    (h2 : b2 kind p.name = Option.none) :
    validate p b1 = validate p b2 := by
  simp [validate, hk, h1, h2]

/-- Witness for C9: a JSON body carrying `{"x": null}` versus an empty
request, for `x: Optional[int] = Json()`. -/
theorem C9_witness :
    validate (mkParam "x" (Ann.unionOf [.prim .int, .prim .noneType]) jsonB)
      (request_inputs [] { emptyReq with json := [("x", Value.none)] }) =
    validate (mkParam "x" (Ann.unionOf [.prim .int, .prim .noneType]) jsonB)
      (request_inputs [] emptyReq) :=
  C9_explicit_null_equals_absent _ .json _ _ rfl rfl rfl

/-- C10: the semantic step wraps exactly `ValueError` from the delivery
type's `validate` into a `ValidationError` carrying the constraint's
message, the parameter name and the (possibly election-collapsed) type
descriptor; any other exception escapes unwrapped.  First conjunct: the
pipeline outcome for `age: int = Json(...)` at raw `21` is exactly
determined by the semantic validator's result, with only `valueError`
wrapped.  Second conjunct: after a union/list election, the collapsed
descriptor `typing.List[str]` — not the declared union — is carried by the
wrapped error. -/
theorem C10_semantic_step_wraps_exactly_valueError :
    (∀ sem : Value → Except PyExc Unit,
      validate (mkParam "age" (.prim .int) (mkDelivery .json Value.none sem))
        (request_inputs [] { emptyReq with json := [("age", .int 21)] }) =
      match sem (.int 21) with
      | .ok _ => .ok (.int 21)
      | .error (.valueError m) => .error (.validationError m "age" (.prim .int))
      | .error e => .error e) ∧
    (∀ m : String,
      validate (mkParam "tags" (.unionOf [.listOf [.prim .str], .prim .int])
          (mkDelivery .json Value.none fun _ => .error (.valueError m)))
        (request_inputs [] { emptyReq with json := [("tags", .list [.str "a"])] }) =
      .error (.validationError m "tags" (.listOf [.prim .str]))) :=
  ⟨fun _ => rfl, fun _ => rfl⟩

open FPV

example :
    validate { name := "id", anno := .prim .int, default := routeB }
      (request_inputs [("id", .int 1)] emptyReq) = .ok (.int 1) := by rfl

example :
    validate { name := "age", anno := .prim .int, default := jsonB }
      (request_inputs [] { emptyReq with json := [("age", .int 21)] }) = .ok (.int 21) := by rfl

-- A Query-delivered int "18": the conformance check runs on the
-- pre-conversion value, so this errors even though convert coerces to 18.
example :
    validate { name := "age", anno := .prim .int, default := mkDelivery .query Value.none okValidateF }
      (request_inputs [] { emptyReq with args := [("age", .str "18")] }) =
      .error (.validationError "must be type int" "age" (.prim .int)) := by rfl

example : specConvert (.str "18") [.prim .int] = .int 18 := by rfl

-- List[str] with a non-iterable raw value: TypeError, not ValidationError.
example :
    validate { name := "nicknames", anno := .listOf [.prim .str], default := jsonB }
      (request_inputs [] { emptyReq with json := [("nicknames", .int 5)] }) =
      .error (.typeError "int object is not iterable") := by rfl

-- List[str] with a correct list: succeeds unchanged.
example :
    validate { name := "nicknames", anno := .listOf [.prim .str], default := jsonB }
      (request_inputs [] { emptyReq with json := [("nicknames", .list [.str "al", .str "bo"])] }) =
      .ok (.list [.str "al", .str "bo"]) := by rfl

-- Optional[int] absent with no default: the null marker.
example :
    validate { name := "x", anno := .unionOf [.prim .int, .prim .noneType], default := jsonB }
      (request_inputs [] emptyReq) = .ok Value.none := by rfl

-- Union[List[str], int] election: the list branch is chosen.
example :
    prepareTypes (.unionOf [.listOf [.prim .str], .prim .int]) (.list [.str "a"]) =
      (.listOf [.prim .str], [.prim .str], .list [.str "a"]) := by rfl

-- is_admin: bool = Query(False), query string omits it: default path.
example :
    validate { name := "is_admin", anno := .prim .bool, default := queryFalseB }
      (request_inputs [] emptyReq) = .ok (.bool false) := by rfl

/-- C3: for a union containing a `typing.List[...]` member (the other
members not list-shaped), a raw value that is a list whose every element's
runtime type is among the member's element types makes the election loop
collapse the descriptor to that list member: the candidate types become
the member's element types and the checked values become the raw list
itself.  For `Union[List[str], int]` the whole pipeline then treats the
value as list-shaped and hands the list to the semantic validator (not the
int case), while a collapsed descriptor forces the converted value to stay
a list.  For a raw value that fires no list member, the union's members
are all kept as the independent candidates. -/
theorem C3_union_list_election :
    (∀ (pre post elemTys : List Ann) (xs : List Value),
      (∀ a ∈ pre, isListAnn a = false) →
      (∀ a ∈ post, isListAnn a = false) →
      xs.all (fun x => typeInAnns x.pyType elemTys) = true →
      prepareTypes (.unionOf (pre ++ .listOf elemTys :: post)) (.list xs) =
        (.listOf elemTys, elemTys, .list xs)) ∧
    (∀ (sem : Value → Except PyExc Unit) (xs : List Value),
      xs.all (fun x => x.pyType == PyType.str) = true →
      validate (mkParam "tags" (.unionOf [.listOf [.prim .str], .prim .int])
          (mkDelivery .json Value.none sem))
        (request_inputs [] { emptyReq with json := [("tags", .list xs)] }) =
      match sem (.list xs) with
      | .ok _ => .ok (.list xs)
      | .error (.valueError m) => .error (.validationError m "tags" (.listOf [.prim .str]))
      | .error e => .error e) ∧
    (∀ (elemTys cands : List Ann) (elems : List Value) (converted : Value),
      converted.pyType ≠ PyType.list →
      conformanceOk (.listOf elemTys) cands elems converted = false) ∧
    (∀ (ms : List Ann) (raw : Value),
      (∀ elemTys xs, Ann.listOf elemTys ∈ ms → raw = .list xs →
        xs.all (fun x => typeInAnns x.pyType elemTys) = false) →
      prepareTypes (.unionOf ms) raw = (.unionOf ms, ms, .list [raw])) := by
  refine ⟨?_, ?_, ?_, ?_⟩
  · intro pre post elemTys xs hpre hpost hall
    show (pre ++ .listOf elemTys :: post).foldl (electStep (.list xs)) _ = _
    rw [List.foldl_append,
      foldl_electStep_id _ pre (fun a ha st => electStep_not_list_ann _ st a (hpre a ha)) _,
      List.foldl_cons]
    have hfire : electStep (.list xs)
        (Ann.unionOf (pre ++ .listOf elemTys :: post),
          pre ++ .listOf elemTys :: post, .list [.list xs]) (.listOf elemTys) =
        (.listOf elemTys, elemTys, .list xs) := by
      simp [electStep, hall]
    rw [hfire,
      foldl_electStep_id _ post (fun a ha st => electStep_not_list_ann _ st a (hpost a ha)) _]
  · intro sem xs hall
    have hall' : xs.all (fun x => typeInAnns x.pyType [.prim .str]) = true := by
      simp only [List.all_eq_true] at hall ⊢
      intro x hx
      simpa [typeInAnns] using hall x hx
    simp only [validate, mkParam, mkDelivery, request_inputs]
    have hlook : alookup [("tags", Value.list xs)] "tags" = some (.list xs) := rfl
    rw [show ((alookup [("tags", Value.list xs)] "tags").getD Value.none) = Value.list xs from rfl]
    simp only [Value.isNone, Bool.false_eq_true, if_false]
    simp only [processValue, isAnyAnn]
    have hprep : prepareTypes (.unionOf [.listOf [.prim .str], .prim .int]) (.list xs) =
        (.listOf [.prim .str], [.prim .str], .list xs) := by
      show List.foldl _ _ _ = _
      rw [List.foldl_cons]
      have hfire : electStep (.list xs)
          (Ann.unionOf [.listOf [.prim .str], .prim .int],
            [.listOf [.prim .str], .prim .int], .list [.list xs]) (.listOf [.prim .str]) =
          (.listOf [.prim .str], [.prim .str], .list xs) := by
        simp [electStep, hall']
      rw [hfire, List.foldl_cons]
      rfl
    rw [hprep]
    have hconv : specConvert (.list xs) [.prim .str] = .list xs := rfl
    rw [hconv]
    simp only [pyIter]
    have hok : conformanceOk (.listOf [.prim .str]) [.prim .str] xs (.list xs) = true := by
      simp only [conformanceOk]
      rw [hall']
      rfl
    rw [hok]
    rfl
  · intro elemTys cands elems converted hconv
    have : (converted.pyType == PyType.list) = false := by
      cases hpt : converted.pyType <;> simp_all
    simp [conformanceOk, isListAnn, this]
  · intro ms raw hnf
    refine foldl_electStep_id raw ms (fun a ha st => ?_) _
    cases a with
    | listOf elemTys =>
      cases raw with
      | list xs => simp [electStep, hnf elemTys xs ha rfl]
      | int _ => rfl
      | str _ => rfl
      | bool _ => rfl
      | none => rfl
    | any => exact electStep_not_list_ann _ st _ rfl
    | prim _ => exact electStep_not_list_ann _ st _ rfl
    | unionOf _ => exact electStep_not_list_ann _ st _ rfl

/-- Witness for C3: the `Union[List[str], int]` scenario with raw
`["a", "b"]` collapses to `List[str]` with candidates `[str]`. -/
theorem C3_witness :
    prepareTypes (.unionOf [.listOf [.prim .str], .prim .int]) (.list [.str "a", .str "b"]) =
      (.listOf [.prim .str], [.prim .str], .list [.str "a", .str "b"]) :=
  C3_union_list_election.1 [] [.prim .int] [.prim .str] [.str "a", .str "b"]
    (fun a ha => by simp at ha)
    (fun a ha => by rw [List.mem_singleton] at ha; subst ha; rfl)
    rfl

/-- C7 counterexample: for `Optional[int]` (i.e.
`typing.Union[int, NoneType]`) with a supplied raw value, normalization
keeps `NoneType` in the candidate-type set — the null marker is *not*
removed, contradicting the claim that it is recorded only as an
optionality flag. -/
theorem C7_counterexample :
    prepareTypes (.unionOf [.prim .int, .prim .noneType]) (.int 5) =
      (.unionOf [.prim .int, .prim .noneType], [Ann.prim .int, Ann.prim .noneType],
        .list [.int 5]) ∧
    Ann.prim .noneType ∈ (prepareTypes (.unionOf [.prim .int, .prim .noneType]) (.int 5)).2.1 :=
  ⟨rfl, List.mem_cons.mpr (Or.inr (List.mem_singleton.mpr rfl))⟩

/-- C7 as amended: normalization of a union with a non-list raw value
keeps the *whole* member list — null marker included — as the candidate
set for the downstream conversion and conformance steps; optionality is
instead tracked by the separate `__args__` membership test used at the
absence step. -/
theorem C7_null_marker_kept_in_candidates
    (ms : List Ann) (raw : Value) (hraw : raw.pyType ≠ PyType.list) :
    prepareTypes (.unionOf ms) raw = (.unionOf ms, ms, .list [raw]) ∧
    optionalByArgs (.unionOf ms) = ms.any Ann.isNoneType ∧
    (Ann.prim .noneType ∈ ms →
      Ann.prim .noneType ∈ (prepareTypes (.unionOf ms) raw).2.1) := by
  have hpp : prepareTypes (.unionOf ms) raw = (.unionOf ms, ms, .list [raw]) :=
    foldl_electStep_id raw ms (fun a ha st => electStep_not_list_value st a raw hraw) _
  exact ⟨hpp, rfl, fun hm => by rw [hpp]; exact hm⟩

/-- Witness for C7's amended statement at `Optional[int]` with raw `"5"`. -/
theorem C7_witness :
    prepareTypes (.unionOf [.prim .int, .prim .noneType]) (.str "5") =
      (.unionOf [.prim .int, .prim .noneType], [Ann.prim .int, Ann.prim .noneType],
        .list [.str "5"]) :=
  (C7_null_marker_kept_in_candidates [.prim .int, .prim .noneType] (.str "5")
    (by decide)).1

/-- C2 counterexample: a Query-delivered `age: int` with raw `"18"`.  The
modelled convert coerces `"18"` to the conforming `18 : int` (second and
third conjuncts), yet the engine raises the type-mismatch error (first
conjunct) — because the conformance check is applied to the value captured
before conversion, not to the converted value; and the raised error
carries only the message, the parameter name and the original declared
type, not the received value's type. -/
theorem C2_counterexample :
    validate (mkParam "age" (.prim .int) (mkDelivery .query Value.none okValidateF))
        (request_inputs [] { emptyReq with args := [("age", .str "18")] }) =
      .error (.validationError "must be type int" "age" (.prim .int)) ∧
    specConvert (.str "18") [.prim .int] = .int 18 ∧
    typeInAnns (specConvert (.str "18") [.prim .int]).pyType [.prim .int] = true :=
  ⟨rfl, rfl, rfl⟩

/-- C2 as amended: for a non-any declared type with a raw value in hand,
the element-wise conformance check of step 7 runs over the elements
captured *before* step 6's conversion (only the list-shape requirement
inspects the converted value); when it fails, the engine raises a
type-mismatch error carrying a message naming the original declared type
as written, the parameter name, and the original declared type object
(the received value's type is not part of the error); when it passes, the
pipeline proceeds to the semantic step on the converted value. -/
theorem C2_conformance_uses_preconversion_elements
    (name : String) (ann : Ann) (dt : DeliveryType) (raw : Value) (elems : List Value)
    (hany : isAnyAnn ann = false)
    (hiter : pyIter (prepareTypes ann raw).2.2 = .ok elems) :
    (conformanceOk (prepareTypes ann raw).1 (prepareTypes ann raw).2.1 elems
        (dt.convert raw (prepareTypes ann raw).2.1) = false →
      processValue name ann dt raw =
        .error (.validationError ("must be type " ++ typeNameForError ann) name ann)) ∧
    (conformanceOk (prepareTypes ann raw).1 (prepareTypes ann raw).2.1 elems
        (dt.convert raw (prepareTypes ann raw).2.1) = true →
      processValue name ann dt raw =
        match dt.validateF (dt.convert raw (prepareTypes ann raw).2.1) with
        | .ok _ => .ok (dt.convert raw (prepareTypes ann raw).2.1)
        | .error (.valueError m) =>
          .error (.validationError m name (prepareTypes ann raw).1)
        | .error e => .error e) := by
  constructor <;> intro hc <;> simp [processValue, hany, hiter, hc]

/-- Witness for C2's amended statement at the Query `"18"` scenario: the
pre-conversion element `"18"` fails the membership check, so the
type-mismatch error is raised. -/
theorem C2_witness :
    processValue "age" (.prim .int) (mkDelivery .query Value.none okValidateF) (.str "18") =
      .error (.validationError ("must be type " ++ typeNameForError (.prim .int)) "age"
        (.prim .int)) :=
  (C2_conformance_uses_preconversion_elements "age" (.prim .int)
      (mkDelivery .query Value.none okValidateF) (.str "18") [.str "18"] rfl rfl).1 rfl

/-- C6 counterexample: `nicknames: List[str] = Json()` with raw value `5`
(a JSON int, not a sequence and not coercible to one) makes per-parameter
validation raise a bare `TypeError` — not the claimed type-mismatch
`ValidationError`. -/
theorem C6_counterexample :
    validate (mkParam "nicknames" (.listOf [.prim .str]) jsonB)
        (request_inputs [] { emptyReq with json := [("nicknames", .int 5)] }) =
      .error (.typeError "int object is not iterable") ∧
    isCaughtDefault (.typeError "int object is not iterable") = false :=
  ⟨rfl, rfl⟩

/-- C6 as amended: for a list-typed parameter (`List[str]`, not inside a
union), a present raw value that is not a list fails validation without the
semantic validator ever being consulted (the result is uniform in `sem`):
an iterable raw value such as a string fails with the type-mismatch
`ValidationError`, while a non-iterable raw value (int, bool) raises an
uncaught `TypeError`. -/
theorem C6_nonlist_raw_never_semantic (sem : Value → Except PyExc Unit) (raw : Value) :
    (∀ s, raw = Value.str s →
      validate (mkParam "nicknames" (.listOf [.prim .str]) (mkDelivery .json Value.none sem))
          (request_inputs [] { emptyReq with json := [("nicknames", raw)] }) =
        .error (.validationError ("must be type " ++ typeNameForError (.listOf [.prim .str]))
          "nicknames" (.listOf [.prim .str]))) ∧
    ((∃ n, raw = Value.int n) ∨ (∃ b, raw = Value.bool b) →
      ∃ m, validate (mkParam "nicknames" (.listOf [.prim .str]) (mkDelivery .json Value.none sem))
          (request_inputs [] { emptyReq with json := [("nicknames", raw)] }) =
        .error (.typeError m)) := by
  constructor
  · rintro s rfl
    simp only [validate, mkParam, mkDelivery, request_inputs]
    rw [show ((alookup [("nicknames", Value.str s)] "nicknames").getD Value.none) =
        Value.str s from rfl]
    simp only [Value.isNone, Bool.false_eq_true, if_false]
    simp only [processValue, isAnyAnn]
    rw [show prepareTypes (.listOf [.prim .str]) (.str s) =
        (.listOf [.prim .str], [.prim .str], .str s) from rfl]
    rw [show specConvert (.str s) [.prim .str] = .str s from rfl]
    simp only [pyIter]
    have hconf : conformanceOk (.listOf [.prim .str]) [.prim .str]
        (s.toList.map fun c => .str (Char.toString c)) (.str s) = false := by
      simp [conformanceOk, isListAnn, Value.pyType]
    rw [hconf]
    rfl
  · rintro (⟨n, rfl⟩ | ⟨b, rfl⟩)
    · exact ⟨"int object is not iterable", rfl⟩
    · exact ⟨"bool object is not iterable", rfl⟩

/-- Witness for C6's amended statement: raw `"abc"` (iterable but not a
list) yields the type-mismatch error. -/
theorem C6_witness :
    validate (mkParam "nicknames" (.listOf [.prim .str]) (mkDelivery .json Value.none okValidateF))
        (request_inputs [] { emptyReq with json := [("nicknames", .str "abc")] }) =
      .error (.validationError ("must be type " ++ typeNameForError (.listOf [.prim .str]))
        "nicknames" (.listOf [.prim .str])) :=
  (C6_nonlist_raw_never_semantic okValidateF (.str "abc")).1 "abc" rfl

-- The rendered message text for the list case.
example : typeNameForError (.listOf [.prim .str]) = "typing.List[str]" := by
  simp only [typeNameForError, Ann.render, renderArgs, renderArg, primTypeName]
  rfl

/-- Skipping validated-successfully parameters: the session loop carries
them into the accumulator and proceeds. -/
theorem nestedGo_skip_ok {ρ : Type} (h? : Option (PyExc → ρ))
    (inputs : SourceKind → String → Option Value) (kwargs : List (String × Value)) :
    ∀ (pre l : List Parameter) (acc : List (String × Value)),
      (∀ q ∈ pre, ∃ v, validate q inputs = .ok v) →
      ∃ acc2, nestedGo h? inputs kwargs (pre ++ l) acc = nestedGo h? inputs kwargs l acc2
  | [], _, acc, _ => ⟨acc, rfl⟩
  | q :: rest, l, acc, h => by
    obtain ⟨v, hv⟩ := h q (by simp)
    have ih := nestedGo_skip_ok h? inputs kwargs rest l (acc ++ [(q.name, v)])
      (fun b hb => h b (by simp [hb]))
    cases h? with
    | none => simpa [nestedGo, hv] using ih
    | some hh => simpa [nestedGo, hv] using ih

/-- C8: the first parameter whose validation raises aborts the session
(fail-fast — the remaining parameters are irrelevant).  With no custom
error handler and the error a `MissingInputError` or `ValidationError`
(the class shared by type-mismatch and semantic failures), the session
returns the default structured payload (modelling `("error": str(e))`)
with status 400; with a custom error handler configured, the handler is
invoked on the raised error — uniformly for *every* error kind — and its
result is returned verbatim. -/
theorem C8_failfast_and_error_modes {ρ : Type} (h : PyExc → ρ)
    (pre rest : List Parameter) (p : Parameter)
    (kwargs : List (String × Value)) (req : RequestData) (e : PyExc)
    (hok : ∀ q ∈ pre, ∃ v, validate q (request_inputs kwargs req) = .ok v)
    (herr : validate p (request_inputs kwargs req) = .error e) :
    (isCaughtDefault e = true →
      nested_func (Option.none : Option (PyExc → ρ)) (pre ++ p :: rest) kwargs req =
        .errorResponse (strOfExc e) 400) ∧
    nested_func (some h) (pre ++ p :: rest) kwargs req = .custom (h e) := by
  constructor
  · intro hc
    obtain ⟨acc2, hskip⟩ :=
      nestedGo_skip_ok (Option.none : Option (PyExc → ρ)) (request_inputs kwargs req) kwargs
        pre (p :: rest) [] hok
    unfold nested_func
    rw [hskip]
    simp [nestedGo, herr, hc]
  · obtain ⟨acc2, hskip⟩ :=
      nestedGo_skip_ok (some h) (request_inputs kwargs req) kwargs pre (p :: rest) [] hok
    unfold nested_func
    rw [hskip]
    simp [nestedGo, herr]

/-- Witness for C8: `id` validates, `age` (required Json, absent) raises
`MissingInputError`; both session modes observed. -/
theorem C8_witness :
    nested_func (Option.none : Option (PyExc → String)) [idParam, ageParam]
        [("id", .int 1)] emptyReq =
      .errorResponse (strOfExc (.missingInput "age" .json)) 400 ∧
    nested_func (some strOfExc) [idParam, ageParam] [("id", .int 1)] emptyReq =
      .custom (strOfExc (.missingInput "age" .json)) := by
  have h := C8_failfast_and_error_modes strOfExc [idParam] [] ageParam
    [("id", .int 1)] emptyReq (.missingInput "age" .json)
    (fun q hq => by
      rw [List.mem_singleton] at hq
      subst hq
      exact ⟨.int 1, rfl⟩)
    rfl
  exact ⟨h.1 rfl, h.2⟩

/-- C1: the session for `POST /update/1` with JSON body
`("username": "adminuser")` succeeds and computes the coerced
`validated_inputs` (second conjunct) — but the handler is invoked with
only the original route kwargs (first conjunct), which do not contain the
Json-bound parameter at all (third conjunct): `return f(**kwargs)`
discards the validated inputs, so the engine's coercions are *not*
authoritative in the handler call. -/
theorem C1_handler_receives_only_route_kwargs :
    nested_func (Option.none : Option (PyExc → Unit)) [idParam, usernameParam]
        [("id", .int 1)] { emptyReq with json := [("username", .str "adminuser")] } =
      .invoked [("id", .int 1)] ∧
    validated_inputs
        (request_inputs [("id", .int 1)] { emptyReq with json := [("username", .str "adminuser")] })
        [idParam, usernameParam] =
      .ok [("id", .int 1), ("username", .str "adminuser")] ∧
    alookup [("id", .int 1)] "username" = Option.none :=
  ⟨rfl, rfl, rfl⟩

/-- Witness for C10 at a concrete failing constraint: the `ValueError`
message is wrapped into the `ValidationError` with the parameter name and
declared type. -/
theorem C10_witness :
    validate (mkParam "age" (.prim .int)
        (mkDelivery .json Value.none fun _ => .error (.valueError "below minimum")))
      (request_inputs [] { emptyReq with json := [("age", .int 21)] }) =
      .error (.validationError "below minimum" "age" (.prim .int)) :=
  C10_semantic_step_wraps_exactly_valueError.1 fun _ => .error (.valueError "below minimum")
